import Mathlib

/-
Verification of the job-radar incremental ingestion pipeline.

The development shallowly embeds the Python sources:
  * job_radar/config.py          — Matching Engine (SearchProfile predicates)
  * job_radar/db/models.py       — Listing Store (jobs table, runs table)
  * job_radar/pipeline/analyzer.py — enrichment collaborator boundary
  * job_radar/pipeline/extractor.py — build_job
  * job_radar/sources/arbeitsagentur.py — fetch_job_list dedup loop
  * scripts/run_pipeline.py      — Reconciliation Engine and Orchestrator

The SQLite tables are modelled as in-memory lists of rows; the network and
LLM collaborators are modelled as explicit function parameters, matching the
spec's collaborator contracts and the way the repository's own tests patch
them.
-/

namespace JobRadar

/-! ## Matching Engine (job_radar/config.py)

`matches_title` uses Python regexes `\b<kw>` (left word boundary, keyword
escaped, so a literal match) and `\b<ex>\b` (full word).  We model the regex
word-character class and the zero-width boundary assertion directly over the
character list of the lower-cased title. -/

/-- Word character test for the regex word-boundary assertion: alphanumeric or
underscore (the titles exercised by the spec only have ASCII boundary
positions). -/
def isWordChar (c : Char) : Bool := c.isAlphanum || c = '_'

/-- Whether position `i` of `s` holds a word character; out of range counts as
a non-word position, as for the regex engine. -/
def wordAt (s : List Char) (i : Nat) : Bool :=
  match s[i]? with
  | some c => isWordChar c
  | none => false

/-- The regex boundary assertion at position `i`: exactly one of the
position before `i` and the position at `i` holds a word character. -/
def boundaryAt (s : List Char) (i : Nat) : Bool :=
  (if i = 0 then false else wordAt s (i - 1)) != wordAt s i

/-- Search for the pattern consisting of a word boundary followed by the
literal characters `kw` — the compiled form of `r"\b" + re.escape(kw)`. -/
def searchLeftBoundary (kw s : List Char) : Bool :=
  (List.range (s.length + 1)).any fun i => boundaryAt s i && kw.isPrefixOf (s.drop i)

/-- Search for the pattern consisting of the literal characters `ex` enclosed
in word boundaries — the compiled form of `r"\b" + re.escape(ex) + r"\b"`. -/
def searchFullWord (ex s : List Char) : Bool :=
  (List.range (s.length + 1)).any fun i =>
    boundaryAt s i && ex.isPrefixOf (s.drop i) && boundaryAt s (i + ex.length)

/-- Case-insensitive-free substring test, modelling Python's `in` on strings. -/
def containsSubstr (needle hay : List Char) : Bool :=
  (List.range (hay.length + 1)).any fun i => needle.isPrefixOf (hay.drop i)

/-- Python str.lower(), character-wise (the non-ASCII characters appearing in
the data, such as umlauts, are already lower case). -/
def lowerChars (s : List Char) : List Char := s.map Char.toLower

/-- Python str.strip(): drop leading and trailing whitespace. -/
def trimChars (s : List Char) : List Char :=
  ((s.dropWhile Char.isWhitespace).reverse.dropWhile Char.isWhitespace).reverse

/-- SearchProfile from config.py (the source-query overlays are consumed only
by the source collaborators, which this embedding parameterises over, so the
overlay list is not carried here). -/
structure SearchProfile where
  name : String
  remote_only : Bool
  location_filter : List String
  title_keywords : List String
  title_exclude : List String
  fit_score_context : String := ""
  enabled : Bool := true
deriving DecidableEq

/-- SearchProfile.matches_title: the title (dict access with default `""`) is
lower-cased; a keyword hit is a left-word-boundary prefix match of the
stripped keyword; an exclude hit additionally requires the right boundary.
Result is `has_keyword and not is_excluded`. -/
def SearchProfile.matches_title (sp : SearchProfile) (titel : String) : Bool :=
  let title := lowerChars titel.data
  let has_keyword := sp.title_keywords.any fun kw => searchLeftBoundary (trimChars kw.data) title
  let is_excluded := sp.title_exclude.any fun ex => searchFullWord (trimChars ex.data) title
  has_keyword && !is_excluded

/-- SearchProfile.matches_location: remote jobs always pass; then a
remote-only profile rejects; otherwise any location-filter term must be a
case-insensitive substring of the (possibly absent) location text. -/
def SearchProfile.matches_location (sp : SearchProfile) (ort : Option String)
    (remote : Bool) : Bool :=
  if remote then true
  else if sp.remote_only then false
  else
    let o := lowerChars (ort.getD "").data
    sp.location_filter.any fun term => containsSubstr (lowerChars term.data) o

/-! Spec-side formulations (from the spec's words, §4.1) of the two title
hit notions, as unbounded existentials, to be compared with the bounded
search implemented by the code. -/

/-- Modelled from the spec wording: the stripped keyword occurs in the
lower-cased title starting at a word boundary, as a prefix match that may
continue into a longer word. -/
def KeywordPrefixHit (kw titel : String) : Prop :=
  ∃ i : Nat, boundaryAt (lowerChars titel.data) i = true ∧
    (trimChars kw.data).isPrefixOf ((lowerChars titel.data).drop i) = true

/-- Modelled from the spec wording: the stripped exclude term occurs in the
lower-cased title as a full word, with both boundaries enforced. -/
def ExcludeFullWordHit (ex titel : String) : Prop :=
  ∃ i : Nat, boundaryAt (lowerChars titel.data) i = true ∧
    (trimChars ex.data).isPrefixOf ((lowerChars titel.data).drop i) = true ∧
    boundaryAt (lowerChars titel.data) (i + (trimChars ex.data).length) = true

/-- Profile with keyword `referent`, used by the spec's matching examples. -/
def referentProfile : SearchProfile :=
  { name := "koeln", remote_only := false, location_filter := ["Köln"],
    title_keywords := ["referent"], title_exclude := [] }

/-- Same profile with exclude term `head of`. -/
def referentExcludeProfile : SearchProfile :=
  { referentProfile with title_exclude := ["head of"] }

/-! ## Listing Store (job_radar/db/models.py)

The jobs table is a list of rows keyed by the primary key `refnr`; the runs
table is a list of rows keyed by the autoincrement `id`.  A row has one field
per column of the schema created by init_db, with the same optionality. -/

/-- The Job dataclass; its fields coincide with the columns of the jobs
table. -/
structure Job where
  refnr : String
  titel : String
  arbeitgeber : String
  ort : String
  eintrittsdatum : Option String
  veroeffentlicht_am : Option String
  raw_text : Option String := none
  llm_output : Option String := none
  titel_normalisiert : Option String := none
  remote : Option String := none
  vertragsart : Option String := none
  seniority : Option String := none
  tech_stack : Option String := none
  zusammenfassung : Option String := none
  fit_score : Option Int := none
  modifikations_timestamp : Option String := none
  source : String := "arbeitsagentur"
  search_profile : String := "koeln"
  fetched_at : String := ""
  bewerbung_entwurf : Option String := none
  bewerbung_status : Option String := none
  bewerbung_quellen : Option String := none
  duplicate_of : Option String := none
  job_status : String := "active"
  status_updated_at : Option String := none
deriving DecidableEq

/-- The PipelineRun dataclass / rows of the runs table. -/
structure PipelineRun where
  id : Option Nat := none
  started_at : String := ""
  finished_at : Option String := none
  source : String := ""
  search_profile : String := ""
  jobs_fetched : Nat := 0
  jobs_new : Nat := 0
  jobs_updated : Nat := 0
  jobs_skipped : Nat := 0
  jobs_failed : Nat := 0
  status : String := "running"
  error_msg : Option String := none
deriving DecidableEq

abbrev JobsTable := List Job

abbrev RunsTable := List PipelineRun

/-- job_exists: SELECT 1 FROM jobs WHERE refnr = ?. -/
def job_exists (jobs : JobsTable) (refnr : String) : Bool :=
  jobs.any fun j => j.refnr == refnr

/-- get_modifikations_timestamp: returns the stored change-token, collapsing
a missing row and a row with a NULL token to `none`, as the Python does. -/
def get_modifikations_timestamp (jobs : JobsTable) (refnr : String) : Option String :=
  match jobs.find? (fun j => j.refnr == refnr) with
  | some j => j.modifikations_timestamp
  | none => none

/-- The row produced by insert_job's INSERT: the nineteen listed columns come
from the Job, every remaining column takes its schema default (NULL, and
active for job_status). -/
def insertedRow (job : Job) : Job :=
  { refnr := job.refnr
    titel := job.titel
    arbeitgeber := job.arbeitgeber
    ort := job.ort
    eintrittsdatum := job.eintrittsdatum
    veroeffentlicht_am := job.veroeffentlicht_am
    raw_text := job.raw_text
    llm_output := job.llm_output
    titel_normalisiert := job.titel_normalisiert
    remote := job.remote
    vertragsart := job.vertragsart
    seniority := job.seniority
    tech_stack := job.tech_stack
    zusammenfassung := job.zusammenfassung
    fit_score := job.fit_score
    modifikations_timestamp := job.modifikations_timestamp
    source := job.source
    fetched_at := job.fetched_at
    search_profile := job.search_profile
    bewerbung_entwurf := none
    bewerbung_status := none
    bewerbung_quellen := none
    duplicate_of := none
    job_status := "active"
    status_updated_at := none }

/-- insert_job: INSERT raises an IntegrityError when the primary key is
already present, otherwise appends the inserted row. -/
def insert_job (jobs : JobsTable) (job : Job) : Except String JobsTable :=
  if job_exists jobs job.refnr then
    Except.error "IntegrityError: UNIQUE constraint failed: jobs.refnr"
  else
    Except.ok (jobs ++ [insertedRow job])

/-- The row produced by update_job's UPDATE on a matching row: exactly the
sixteen SET columns are overwritten; identity, source, search_profile, the
application-tracking columns, duplicate_of, job_status and status_updated_at
are untouched. -/
def updatedRow (old incoming : Job) : Job :=
  { old with
    titel := incoming.titel
    arbeitgeber := incoming.arbeitgeber
    ort := incoming.ort
    eintrittsdatum := incoming.eintrittsdatum
    veroeffentlicht_am := incoming.veroeffentlicht_am
    raw_text := incoming.raw_text
    llm_output := incoming.llm_output
    titel_normalisiert := incoming.titel_normalisiert
    remote := incoming.remote
    vertragsart := incoming.vertragsart
    seniority := incoming.seniority
    tech_stack := incoming.tech_stack
    zusammenfassung := incoming.zusammenfassung
    fit_score := incoming.fit_score
    modifikations_timestamp := incoming.modifikations_timestamp
    fetched_at := incoming.fetched_at }

/-- update_job: UPDATE ... WHERE refnr = :refnr. -/
def update_job (jobs : JobsTable) (job : Job) : JobsTable :=
  jobs.map fun row => if row.refnr == job.refnr then updatedRow row job else row

/-- SELECT * FROM jobs WHERE refnr = ? (the read-back used by the round-trip
property and by the repository's own tests). -/
def selectJob (jobs : JobsTable) (refnr : String) : Option Job :=
  jobs.find? fun j => j.refnr == refnr

/-- The status transition applied by mark_jobs_presumably_filled's UPDATE. -/
def filledRow (now : String) (j : Job) : Job :=
  { j with job_status := "presumably_filled", status_updated_at := some now }

/-- The WHERE clause of mark_jobs_presumably_filled: active rows of the given
profile whose refnr is not among the seen ids. -/
def presumablyFilledTarget (search_profile : String) (seen : List String) (j : Job) : Bool :=
  j.search_profile == search_profile && j.job_status == "active" && !(seen.contains j.refnr)

/-- mark_jobs_presumably_filled: no-op returning 0 on an empty seen set;
otherwise transitions the targeted rows, stamping status_updated_at, and
returns the number of rows the UPDATE touched. -/
def mark_jobs_presumably_filled (jobs : JobsTable) (search_profile : String)
    (seen : List String) (now : String) : JobsTable × Nat :=
  if seen.isEmpty then (jobs, 0)
  else
    (jobs.map fun j =>
        if presumablyFilledTarget search_profile seen j then filledRow now j else j,
      (jobs.filter (presumablyFilledTarget search_profile seen)).length)

/-- get_active_refnrs: refnrs of the active rows for a profile. -/
def get_active_refnrs (jobs : JobsTable) (search_profile : String) : List String :=
  (jobs.filter fun j => j.search_profile == search_profile && j.job_status == "active").map
    (fun j => j.refnr)

/-- insert_run: appends a row carrying the next autoincrement id and returns
that id (lastrowid). -/
def insert_run (runs : RunsTable) (run : PipelineRun) : RunsTable × Nat :=
  (runs ++ [{ run with id := some (runs.length + 1) }], runs.length + 1)

/-- finish_run: UPDATE runs SET ... WHERE id = :id, stamping finished_at. -/
def finish_run (runs : RunsTable) (run_id : Nat)
    (jobs_fetched jobs_new jobs_updated jobs_skipped jobs_failed : Nat)
    (status : String) (error_msg : Option String) (now : String) : RunsTable :=
  runs.map fun r =>
    if r.id == some run_id then
      { r with
        finished_at := some now
        jobs_fetched := jobs_fetched
        jobs_new := jobs_new
        jobs_updated := jobs_updated
        jobs_skipped := jobs_skipped
        jobs_failed := jobs_failed
        status := status
        error_msg := error_msg }
    else r

/-- A concrete active listing for the koeln profile. -/
def aktiveJob : Job :=
  { refnr := "A"
    titel := "Referent"
    arbeitgeber := "X"
    ort := "Köln"
    eintrittsdatum := none
    veroeffentlicht_am := none
    search_profile := "koeln" }

/-- A listing carrying non-default application-tracking fields, a duplicate
back-reference and a non-active lifecycle status. -/
def trackedJob : Job :=
  { refnr := "DE-1"
    titel := "Data Engineer"
    arbeitgeber := "Acme GmbH"
    ort := "Köln"
    eintrittsdatum := none
    veroeffentlicht_am := none
    raw_text := some "Stellentext"
    modifikations_timestamp := some "2026-02-01T12:00:00"
    bewerbung_entwurf := some "Entwurf"
    bewerbung_status := some "beworben"
    bewerbung_quellen := some "[\x22https://a.example\x22]"
    duplicate_of := some "DE-0"
    job_status := "presumably_filled"
    status_updated_at := some "2026-01-15T00:00:00+00:00" }

/-! ## Enrichment collaborator (job_radar/pipeline/analyzer.py) -/

/-- The structured result of the enrichment call (the keys of the stub and of
the JSON schema in the prompt). -/
structure AnalyzeResult where
  titel_normalisiert : Option String := none
  remote : Option String := none
  vertragsart : Option String := none
  seniority : Option String := none
  tech_stack : Option (List String) := none
  zusammenfassung : Option String := none
  fit_score : Option Int := none
deriving DecidableEq

/-- The all-absent stub returned when no API key is set or the call fails. -/
def analyzeStub : AnalyzeResult := {}

/-- The body of analyze: stub without an API key, otherwise the LLM
collaborator's parsed response, stub again on any failure. -/
def analyze (text api_key : String) (llm : String → Except String AnalyzeResult) :
    AnalyzeResult :=
  if api_key = "" then analyzeStub
  else
    match llm text with
    | Except.ok r => r
    | Except.error _ => analyzeStub

/-- The formal parameter names of analyze as defined in analyzer.py. -/
def analyzeParams : List String := ["text", "api_key"]

/-- The keyword-argument names supplied to analyze at the call site inside
_process_batch in run_pipeline.py. -/
def analyzeCallKwargs : List String := ["api_key", "profile_text", "fit_score_context"]

/-- Python keyword-call semantics: a keyword argument whose name is not among
the callee's formal parameters raises TypeError before the body runs. -/
def callWithKwargs (params kwargs : List String) (body : AnalyzeResult) :
    Except String AnalyzeResult :=
  if kwargs.all params.contains then Except.ok body
  else Except.error "TypeError: analyze() got an unexpected keyword argument"

/-! ## Extractor collaborator (job_radar/pipeline/extractor.py) -/

/-- A raw listing dict as handed to the pipeline by a source (keys of the
Arbeitsagentur response, which arbeitnow's normalizer also maps onto).
Absent keys are `none`. -/
structure RawJob where
  refnr : Option String := none
  titel : Option String := none
  arbeitgeber : Option String := none
  arbeitsort_ort : Option String := none
  ort : Option String := none
  eintrittsdatum : Option String := none
  aktuelleVeroeffentlichungsdatum : Option String := none
  modifikationsTimestamp : Option String := none
  raw_text : Option String := none
  remote : Option Bool := none
deriving DecidableEq

/-- Python `a or b` for an optional string with a plain fallback: absent and
empty are both falsy. -/
def pyOrStr (a : Option String) (b : String) : String :=
  match a with
  | some s => if s = "" then b else s
  | none => b

/-- Python `a or b` where the fallback may itself be absent. -/
def pyOrOpt (a b : Option String) : Option String :=
  match a with
  | some s => if s = "" then b else some s
  | none => b

/-- build_job: fails (returns none) only on the KeyError for a missing refnr;
the place is the nested arbeitsort dict's ort falling back to the flat ort;
the raw text falls back to the detail-fetch collaborator, whose failure
leaves the raw text absent but still yields a record. -/
def applyRemoteHint (remote_hint : Bool) (job : Job) : Job :=
  if remote_hint && job.remote == none then { job with remote := some "remote" } else job

def build_job (raw : RawJob) (source : String) (remote_hint : Bool)
    (fetchDetail : String → Option String) : Option Job :=
  match raw.refnr with
  | none => none
  | some refnr =>
    some (applyRemoteHint remote_hint
      { refnr := refnr
        titel := raw.titel.getD ""
        arbeitgeber := raw.arbeitgeber.getD ""
        ort := pyOrStr raw.arbeitsort_ort (raw.ort.getD "")
        eintrittsdatum := raw.eintrittsdatum
        veroeffentlicht_am := raw.aktuelleVeroeffentlichungsdatum
        raw_text := pyOrOpt raw.raw_text (fetchDetail refnr)
        modifikations_timestamp := raw.modifikationsTimestamp
        source := source })

/-! ## Reconciliation Engine (_process_batch in scripts/run_pipeline.py)

The enrichment call is passed in as a collaborator function of the listing's
raw text (the repository's tests patch analyze the same way); since Python
raises TypeError at that call site (see the C2 theorems), an erroring
collaborator models the real composition and an Except.ok collaborator models
the collaborator contract of spec section 6. -/

/-- A simple injective stand-in for json.dumps on a list of strings; only the
fact that something non-absent is stored matters to the claims. -/
def jsonDumpsList (l : List String) : String :=
  "[" ++ String.intercalate ", " (l.map fun s => "\x22" ++ s ++ "\x22") ++ "]"

/-- Stand-in for json.dumps of the whole analyze result, stored as
llm_output. -/
def jsonDumpsResult (r : AnalyzeResult) : String :=
  String.intercalate "|"
    [r.titel_normalisiert.getD "null", r.remote.getD "null", r.vertragsart.getD "null",
      r.seniority.getD "null",
      (match r.tech_stack with | some l => jsonDumpsList l | none => "null"),
      r.zusammenfassung.getD "null",
      (match r.fit_score with | some n => toString n | none => "null")]

/-- The seven enrichment-output assignments of _process_batch, including the
truthiness guard on tech_stack (an empty list is stored as absent) and the
dump of the whole result into llm_output. -/
def applyAnalysis (job : Job) (result : AnalyzeResult) : Job :=
  { job with
    titel_normalisiert := result.titel_normalisiert
    remote := result.remote
    vertragsart := result.vertragsart
    seniority := result.seniority
    tech_stack :=
      match result.tech_stack with
      | some l => if l.isEmpty then none else some (jsonDumpsList l)
      | none => none
    zusammenfassung := result.zusammenfassung
    fit_score := result.fit_score
    llm_output := some (jsonDumpsResult result) }

/-- The per-listing statistic bucket chosen by the loop body. -/
inductive Outcome
  | ignored
  | skipped
  | failed
  | new
  | updated
deriving DecidableEq

/-- The four counters of _process_batch. -/
structure Counts where
  new : Nat := 0
  skipped : Nat := 0
  reanalyzed : Nat := 0
  failed : Nat := 0
deriving DecidableEq

def Counts.add (c : Counts) : Outcome → Counts
  | Outcome.ignored => c
  | Outcome.skipped => { c with skipped := c.skipped + 1 }
  | Outcome.failed => { c with failed := c.failed + 1 }
  | Outcome.new => { c with new := c.new + 1 }
  | Outcome.updated => { c with reanalyzed := c.reanalyzed + 1 }

/-- One iteration of the _process_batch loop: refnr guard, change-token
check, record building, title and location filters, profile tagging,
enrichment, then exactly one insert or update.  An error (from the
enrichment call or from the store) leaves the table untouched at that point
and aborts the batch. -/
def process_one (jobs : JobsTable) (sp : SearchProfile) (profile_key source : String)
    (enrich : String → Except String AnalyzeResult) (fetchDetail : String → Option String)
    (raw : RawJob) : Except String (JobsTable × Outcome) :=
  match raw.refnr with
  | none => Except.ok (jobs, Outcome.ignored)
  | some refnr =>
    if refnr = "" then Except.ok (jobs, Outcome.ignored)
    else
      let is_existing := job_exists jobs refnr
      if is_existing && (get_modifikations_timestamp jobs refnr == raw.modifikationsTimestamp)
      then Except.ok (jobs, Outcome.skipped)
      else
        match build_job raw source false fetchDetail with
        | none => Except.ok (jobs, Outcome.failed)
        | some job0 =>
          if !(sp.matches_title job0.titel) ||
              !(sp.matches_location (some job0.ort) (job0.remote == some "remote")) then
            Except.ok (jobs, Outcome.skipped)
          else
            let job1 := { job0 with search_profile := profile_key }
            match enrich (job1.raw_text.getD "") with
            | Except.error e => Except.error e
            | Except.ok result =>
              let job2 := applyAnalysis job1 result
              if is_existing then Except.ok (update_job jobs job2, Outcome.updated)
              else
                match insert_job jobs job2 with
                | Except.ok t => Except.ok (t, Outcome.new)
                | Except.error e => Except.error e

/-- The _process_batch loop; per-listing store writes already committed
before a failure persist, the failure itself aborts the rest of the batch. -/
def process_batch (jobs : JobsTable) (counts : Counts) (sp : SearchProfile)
    (profile_key source : String) (enrich : String → Except String AnalyzeResult)
    (fetchDetail : String → Option String) :
    List RawJob → JobsTable × Except String Counts
  | [] => (jobs, Except.ok counts)
  | raw :: rest =>
    match process_one jobs sp profile_key source enrich fetchDetail raw with
    | Except.error e => (jobs, Except.error e)
    | Except.ok (jobs2, o) =>
      process_batch jobs2 (counts.add o) sp profile_key source enrich fetchDetail rest

/-! ## Ingestion Orchestrator (_run_profile and run in scripts/run_pipeline.py) -/

/-- CandidateProfile from config.py. -/
structure CandidateProfile where
  name : String
  profile_text : String
  search_profiles : List SearchProfile
deriving DecidableEq

/-- _run_profile: inserts a running run record, processes the Arbeitsagentur
batch and then the Arbeitnow batch, and finishes the run exactly once —
success with the aggregated totals, or error with the exception message and
zero counts; the exception is then re-raised (the Except.error value is
propagated to the caller). -/
def run_profile (jobs : JobsTable) (runs : RunsTable) (candidate_name : String)
    (sp : SearchProfile) (aa_jobs an_jobs : List RawJob)
    (enrich : String → Except String AnalyzeResult) (fetchDetail : String → Option String)
    (now : String) : JobsTable × RunsTable × Except String Unit :=
  let profile_key := candidate_name ++ "_" ++ sp.name
  let ir := insert_run runs { source := "all", search_profile := profile_key, started_at := now }
  let runs1 := ir.1
  let run_id := ir.2
  match process_batch jobs {} sp profile_key "arbeitsagentur" enrich fetchDetail aa_jobs with
  | (jobs1, Except.error e) =>
    (jobs1, finish_run runs1 run_id 0 0 0 0 0 "error" (some e) now, Except.error e)
  | (jobs1, Except.ok aa) =>
    match process_batch jobs1 {} sp profile_key "arbeitnow" enrich fetchDetail an_jobs with
    | (jobs2, Except.error e) =>
      (jobs2, finish_run runs1 run_id 0 0 0 0 0 "error" (some e) now, Except.error e)
    | (jobs2, Except.ok an) =>
      (jobs2,
        finish_run runs1 run_id (aa_jobs.length + an_jobs.length) (aa.new + an.new)
          (aa.reanalyzed + an.reanalyzed) (aa.skipped + an.skipped) (aa.failed + an.failed)
          "success" none now,
        Except.ok ())

/-- The nested candidate loop of run() flattened into (candidate, profile)
pairs, in order; the enabled flag is not consulted anywhere in run(). -/
def profilePairs (candidates : List CandidateProfile) :
    List (CandidateProfile × SearchProfile) :=
  candidates.flatMap fun c => c.search_profiles.map fun sp => (c, sp)

/-- The body of run()'s loop: one cycle per pair; an exception re-raised by a
cycle propagates, so the remaining pairs are never processed. -/
def runPairs (jobs : JobsTable) (runs : RunsTable)
    (fetchAA fetchAN : CandidateProfile → SearchProfile → List RawJob)
    (enrich : String → Except String AnalyzeResult) (fetchDetail : String → Option String)
    (now : String) :
    List (CandidateProfile × SearchProfile) → JobsTable × RunsTable × Except String Unit
  | [] => (jobs, runs, Except.ok ())
  | (c, sp) :: rest =>
    match run_profile jobs runs c.name sp (fetchAA c sp) (fetchAN c sp) enrich fetchDetail now with
    | (jobs2, runs2, Except.ok ()) =>
      runPairs jobs2 runs2 fetchAA fetchAN enrich fetchDetail now rest
    | (jobs2, runs2, Except.error e) => (jobs2, runs2, Except.error e)

/-- run(): iterates every candidate and every one of its search profiles,
with the source fetches, the enrichment call and the detail fetch as
collaborators. -/
def run (jobs : JobsTable) (runs : RunsTable) (candidates : List CandidateProfile)
    (fetchAA fetchAN : CandidateProfile × SearchProfile → List RawJob)
    (enrich : String → Except String AnalyzeResult) (fetchDetail : String → Option String)
    (now : String) : JobsTable × RunsTable × Except String Unit :=
  runPairs jobs runs (fun c sp => fetchAA (c, sp)) (fun c sp => fetchAN (c, sp)) enrich
    fetchDetail now (profilePairs candidates)

/-! ## Arbeitsagentur source (fetch_job_list in sources/arbeitsagentur.py)

The network is a collaborator: the input is, per configured query, the list
of result pages its successive page requests yield (a request error behaves
like an empty tail).  The loop consumes at most max_pages pages per query,
stops a query at its first empty page, and folds every entry carrying a
non-empty refnr into one insertion-ordered dict keyed by refnr. -/

/-- Python dict update on an insertion-ordered association list whose keys
are unique (which collectRefnrs maintains): replace the value in place, or
append a fresh key at the end. -/
def assocSet : List (String × RawJob) → String → RawJob → List (String × RawJob)
  | [], k, v => [(k, v)]
  | p :: rest, k, v => if p.1 == k then (k, v) :: rest else p :: assocSet rest k v

/-- The collection loop: entries without a refnr (absent or empty, both falsy
in Python) are dropped; the rest overwrite by refnr, last write winning. -/
def collectRefnrs (m : List (String × RawJob)) : List RawJob → List (String × RawJob)
  | [] => m
  | raw :: rest =>
    match raw.refnr with
    | some r => if r = "" then collectRefnrs m rest else collectRefnrs (assocSet m r raw) rest
    | none => collectRefnrs m rest

/-- The pages one query's paging loop actually processes: at most max_pages,
stopping at the first empty page. -/
def consumedPages (pages : List (List RawJob)) (max_pages : Nat) : List (List RawJob) :=
  (pages.take max_pages).takeWhile fun pg => !pg.isEmpty

/-- All raw entries processed across the queries, in fetch order. -/
def aaStream (queryPages : List (List (List RawJob))) (max_pages : Nat) : List RawJob :=
  ((queryPages.map fun pages => consumedPages pages max_pages).flatten).flatten

/-- fetch_job_list: a profile with no configured queries yields no batch at
all; otherwise the values of the dict built over the whole stream. -/
def fetch_job_list (queryPages : List (List (List RawJob))) (max_pages : Nat) :
    List RawJob :=
  if queryPages.isEmpty then []
  else (collectRefnrs [] (aaStream queryPages max_pages)).map fun p => p.2

/-- Lookup by key on the association list. -/
def lookupRef (m : List (String × RawJob)) (k : String) : Option RawJob :=
  (m.find? fun p => p.1 == k).map fun p => p.2

/-! ## Claim theorems on the analyzer and the Reconciliation Engine -/

/-! ## Concrete fixtures for scenario evaluation -/

/-- Enrichment collaborator honouring the spec contract: always returns the
all-absent result, never raises. -/
def enrichOk : String → Except String AnalyzeResult := fun _ => Except.ok analyzeStub

/-- Enrichment collaborator that raises, as the real composed code does (C2)
or as a store-fatal situation would. -/
def enrichBoom : String → Except String AnalyzeResult := fun _ => Except.error "boom"

/-- Detail-fetch collaborator that yields nothing. -/
def fetchNone : String → Option String := fun _ => none

/-- Raw listing A of the spec's two-cycle koeln scenario. -/
def rawA1 : RawJob :=
  { refnr := some "A"
    titel := some "Referent Diversity"
    arbeitgeber := some "X"
    ort := some "Köln"
    modifikationsTimestamp := some "t1"
    raw_text := some "textA" }

/-- Raw listing B of the spec's two-cycle koeln scenario. -/
def rawB1 : RawJob :=
  { refnr := some "B"
    titel := some "Referentin Bildung"
    arbeitgeber := some "Y"
    ort := some "Köln"
    modifikationsTimestamp := some "t1"
    raw_text := some "textB" }

/-- Candidate c with the single koeln search profile. -/
def testCandidate : CandidateProfile :=
  { name := "c", profile_text := "Profiltext", search_profiles := [referentProfile] }

/-! ## C1: the two-cycle presumably-filled scenario -/

/-- Cycle 1 for (c, koeln): the Arbeitsagentur fetch sees A and B. -/
def cycle1 : JobsTable × RunsTable × Except String Unit :=
  run [] [] [testCandidate] (fun _ => [rawA1, rawB1]) (fun _ => []) enrichOk fetchNone "t-c1"

/-- Cycle 2 for (c, koeln): the fetch sees only A (unchanged). -/
def cycle2 : JobsTable × RunsTable × Except String Unit :=
  run cycle1.1 cycle1.2.1 [testCandidate] (fun _ => [rawA1]) (fun _ => []) enrichOk fetchNone
    "t-c2"

/-! ## C5: re-sighting a presumably_filled listing -/

/-- A stored presumably_filled listing for profile c_koeln. -/
def filledJob : Job :=
  { refnr := "B"
    titel := "Referentin Bildung"
    arbeitgeber := "X"
    ort := "Köln"
    eintrittsdatum := none
    veroeffentlicht_am := none
    modifikations_timestamp := some "t1"
    search_profile := "c_koeln"
    job_status := "presumably_filled"
    status_updated_at := some "t-mark" }

/-- The same listing re-sighted with a differing change-token. -/
def resightRawB : RawJob :=
  { refnr := some "B"
    titel := some "Referentin Bildung"
    arbeitgeber := some "X"
    ort := some "Köln"
    modifikationsTimestamp := some "t2"
    raw_text := some "textB2" }

/-! ## C7: run records and whole-cycle exceptions -/

/-- A second search profile for the same candidate. -/
def bonnProfile : SearchProfile := { referentProfile with name := "bonn" }

/-- Candidate with two search profiles, to observe what an exception in the
first cycle does to the second. -/
def twoProfileCandidate : CandidateProfile :=
  { name := "c", profile_text := "Profiltext", search_profiles := [referentProfile, bonnProfile] }

/-- The orchestrator run in which the first cycle's enrichment call raises. -/
def crashRun : JobsTable × RunsTable × Except String Unit :=
  run [] [] [twoProfileCandidate] (fun _ => [rawA1]) (fun _ => []) enrichBoom fetchNone "t0"

/-! ## C9: the enabled flag -/

/-- The koeln profile with enabled set to false. -/
def disabledProfile : SearchProfile := { referentProfile with enabled := false }

/-- Candidate whose only search profile is disabled. -/
def disabledCandidate : CandidateProfile :=
  { name := "c", profile_text := "Profiltext", search_profiles := [disabledProfile] }

/-- The orchestrator run over the disabled profile. -/
def disabledRun : JobsTable × RunsTable × Except String Unit :=
  run [] [] [disabledCandidate] (fun _ => []) (fun _ => []) enrichOk fetchNone "t0"

/-! ## Theorems -/

theorem wordAt_eq_false_of_le (s : List Char) (i : Nat) (h : s.length ≤ i) :
    wordAt s i = false := by
  unfold wordAt
  rw [List.getElem?_eq_none h]

theorem boundaryAt_eq_false_of_lt (s : List Char) (i : Nat) (h : s.length < i) :
    boundaryAt s i = false := by
  unfold boundaryAt
  have h2 : i ≠ 0 := by omega
  rw [wordAt_eq_false_of_le s i (by omega), wordAt_eq_false_of_le s (i - 1) (by omega)]
  simp [h2]

theorem boundaryAt_le_of_eq_true {s : List Char} {i : Nat} (h : boundaryAt s i = true) :
    i ≤ s.length := by
  by_contra hgt
  push_neg at hgt
  rw [boundaryAt_eq_false_of_lt s i hgt] at h
  exact Bool.false_ne_true h

theorem searchLeftBoundary_iff (kw s : List Char) :
    searchLeftBoundary kw s = true ↔
      ∃ i : Nat, boundaryAt s i = true ∧ kw.isPrefixOf (s.drop i) = true := by
  unfold searchLeftBoundary
  simp only [List.any_eq_true, List.mem_range, Bool.and_eq_true]
  constructor
  · rintro ⟨i, _, hb, hp⟩
    exact ⟨i, hb, hp⟩
  · rintro ⟨i, hb, hp⟩
    exact ⟨i, Nat.lt_succ_of_le (boundaryAt_le_of_eq_true hb), hb, hp⟩

theorem searchFullWord_iff (ex s : List Char) :
    searchFullWord ex s = true ↔
      ∃ i : Nat, boundaryAt s i = true ∧ ex.isPrefixOf (s.drop i) = true ∧
        boundaryAt s (i + ex.length) = true := by
  unfold searchFullWord
  simp only [List.any_eq_true, List.mem_range, Bool.and_eq_true]
  constructor
  · rintro ⟨i, _, ⟨hb, hp⟩, hb2⟩
    exact ⟨i, hb, hp, hb2⟩
  · rintro ⟨i, hb, hp, hb2⟩
    exact ⟨i, Nat.lt_succ_of_le (boundaryAt_le_of_eq_true hb), ⟨hb, hp⟩, hb2⟩

/-- C6: matches_title returns true iff some keyword occurs in the lower-cased
title at a left word boundary as a prefix match and no exclude term occurs as
a full word; exclude overrides keyword.  Keyword `referent` matches
`Referentin für Gleichstellung`; exclude `head of` rejects
`Head of Referenten` despite the keyword hit. -/
theorem matches_title_characterisation :
    (∀ (sp : SearchProfile) (titel : String),
      sp.matches_title titel = true ↔
        ((∃ kw ∈ sp.title_keywords, KeywordPrefixHit kw titel) ∧
          ¬ ∃ ex ∈ sp.title_exclude, ExcludeFullWordHit ex titel)) ∧
    referentProfile.matches_title "Referentin für Gleichstellung" = true ∧
    referentExcludeProfile.matches_title "Head of Referenten" = false := by
  refine ⟨fun sp titel => ?_, by decide, by decide⟩
  unfold SearchProfile.matches_title KeywordPrefixHit ExcludeFullWordHit
  simp only [Bool.and_eq_true, Bool.not_eq_true', Bool.eq_false_iff, Ne, List.any_eq_true,
    searchLeftBoundary_iff, searchFullWord_iff]

theorem presumablyFilledTarget_iff (sp : String) (seen : List String) (j : Job) :
    presumablyFilledTarget sp seen j = true ↔
      j.search_profile = sp ∧ j.job_status = "active" ∧ j.refnr ∉ seen := by
  unfold presumablyFilledTarget
  simp [List.contains, and_assoc]

/-- C4: mark_jobs_presumably_filled with empty seen set is a no-op returning
zero; otherwise it transitions exactly the active rows of the given profile
whose id is not seen (stamping status_updated_at), returns their number, and
leaves every other row — in particular every row of another profile —
unchanged. -/
theorem mark_presumably_filled_spec (jobs : JobsTable) (sp : String)
    (seen : List String) (now : String) :
    (seen = [] → mark_jobs_presumably_filled jobs sp seen now = (jobs, 0)) ∧
    (mark_jobs_presumably_filled jobs sp seen now).1.length = jobs.length ∧
    (∀ (i : Nat) (j : Job), jobs[i]? = some j →
      (mark_jobs_presumably_filled jobs sp seen now).1[i]? =
        some (if seen ≠ [] ∧ j.search_profile = sp ∧ j.job_status = "active" ∧ j.refnr ∉ seen
          then filledRow now j else j)) ∧
    (seen ≠ [] →
      (mark_jobs_presumably_filled jobs sp seen now).2 =
        (jobs.filter (presumablyFilledTarget sp seen)).length) := by
  unfold mark_jobs_presumably_filled
  by_cases hseen : seen = []
  · subst hseen
    simp
  · simp only [List.isEmpty_eq_true, hseen, if_false, ne_eq, not_false_iff, true_and]
    refine ⟨by simp, by simp, ?_, by trivial⟩
    intro i j hij
    simp only [List.getElem?_map, hij, Option.map_some']
    by_cases ht : presumablyFilledTarget sp seen j = true
    · rw [if_pos ht, if_pos ((presumablyFilledTarget_iff sp seen j).1 ht)]
    · rw [if_neg ht, if_neg]
      intro hc
      exact ht ((presumablyFilledTarget_iff sp seen j).2 hc)

/-- Witness for C4 at a concrete store: one active koeln listing, empty seen
set -- the call is a no-op returning zero. -/
theorem mark_presumably_filled_spec_witness :
    mark_jobs_presumably_filled [aktiveJob] "koeln" [] "2026-01-01T00:00:00+00:00" =
      ([aktiveJob], 0) :=
  (mark_presumably_filled_spec [aktiveJob] "koeln" [] "2026-01-01T00:00:00+00:00").1 rfl

/-- Counterexample to C8 as stated: insert_job's INSERT lists only nineteen
columns, so a listing whose application-tracking fields, duplicate_of,
job_status or status_updated_at are non-default does not read back
field-for-field equal — the draft text reads back absent and the lifecycle
status reads back active. -/
theorem insert_roundtrip_counterexample :
    ((insert_job [] trackedJob).toOption.bind fun t => selectJob t "DE-1") ≠
        some trackedJob ∧
    (((insert_job [] trackedJob).toOption.bind fun t => selectJob t "DE-1").map
        fun j => j.bewerbung_entwurf) = some none ∧
    trackedJob.bewerbung_entwurf = some "Entwurf" ∧
    (((insert_job [] trackedJob).toOption.bind fun t => selectJob t "DE-1").map
        fun j => j.job_status) = some "active" ∧
    trackedJob.job_status = "presumably_filled" :=
  ⟨by decide, rfl, rfl, rfl, rfl⟩

/-- C8 amended: inserting a listing with a fresh external id and reading the
same id back yields a row that agrees with the listing on all nineteen
columns named in the INSERT; the application-tracking fields, the
duplicate-of back-reference and the status-change timestamp of the row read
back are absent and its lifecycle status is active, regardless of the values
the inserted listing carried there. -/
theorem insert_roundtrip_amended (jobs : JobsTable) (job : Job)
    (h : job_exists jobs job.refnr = false) :
    ∃ row, insert_job jobs job = Except.ok (jobs ++ [row]) ∧
      selectJob (jobs ++ [row]) job.refnr = some row ∧
      row.refnr = job.refnr ∧ row.titel = job.titel ∧
      row.arbeitgeber = job.arbeitgeber ∧ row.ort = job.ort ∧
      row.eintrittsdatum = job.eintrittsdatum ∧
      row.veroeffentlicht_am = job.veroeffentlicht_am ∧
      row.raw_text = job.raw_text ∧ row.llm_output = job.llm_output ∧
      row.titel_normalisiert = job.titel_normalisiert ∧ row.remote = job.remote ∧
      row.vertragsart = job.vertragsart ∧ row.seniority = job.seniority ∧
      row.tech_stack = job.tech_stack ∧ row.zusammenfassung = job.zusammenfassung ∧
      row.fit_score = job.fit_score ∧
      row.modifikations_timestamp = job.modifikations_timestamp ∧
      row.source = job.source ∧ row.fetched_at = job.fetched_at ∧
      row.search_profile = job.search_profile ∧
      row.bewerbung_entwurf = none ∧ row.bewerbung_status = none ∧
      row.bewerbung_quellen = none ∧ row.duplicate_of = none ∧
      row.job_status = "active" ∧ row.status_updated_at = none := by
  refine ⟨insertedRow job, ?_, ?_, by repeat constructor⟩
  · unfold insert_job
    rw [h]
    rfl
  · unfold selectJob
    rw [List.find?_append]
    have hnone : jobs.find? (fun j => j.refnr == job.refnr) = none := by
      rw [List.find?_eq_none]
      intro x hx hbeq
      have : job_exists jobs job.refnr = true := by
        unfold job_exists
        rw [List.any_eq_true]
        exact ⟨x, hx, hbeq⟩
      rw [h] at this
      exact Bool.false_ne_true this
    rw [hnone]
    simp [insertedRow]

/-- Witness for C8 amended: the tracked listing inserted into the empty
store reads back with its title but with the draft text absent. -/
theorem insert_roundtrip_amended_witness :
    job_exists [] trackedJob.refnr = false ∧
    ∃ row, insert_job [] trackedJob = Except.ok ([] ++ [row]) ∧
      selectJob ([] ++ [row]) trackedJob.refnr = some row ∧
      row.titel = trackedJob.titel ∧ row.bewerbung_entwurf = none := by
  refine ⟨rfl, ?_⟩
  obtain ⟨row, h1, h2, _, htitel, hrest⟩ := insert_roundtrip_amended [] trackedJob rfl
  exact ⟨row, h1, h2, htitel,
    hrest.2.2.2.2.2.2.2.2.2.2.2.2.2.2.2.2.2.1⟩

theorem lookupRef_assocSet (m : List (String × RawJob)) (k0 : String) (v : RawJob)
    (k : String) :
    lookupRef (assocSet m k0 v) k = if k = k0 then some v else lookupRef m k := by
  induction m with
  | nil =>
    unfold assocSet lookupRef
    by_cases h : k = k0
    · subst h
      rw [List.find?_cons_of_pos _ (by simp)]
      simp
    · rw [List.find?_cons_of_neg _ (by simp [Ne.symm h])]
      simp [h, List.find?_nil]
  | cons p rest ih =>
    by_cases hp : p.1 = k0
    · rw [show assocSet (p :: rest) k0 v = (k0, v) :: rest by simp [assocSet, hp]]
      by_cases hk : k = k0
      · subst hk
        unfold lookupRef
        rw [List.find?_cons_of_pos _ (by simp)]
        simp
      · unfold lookupRef
        rw [List.find?_cons_of_neg _ (by simp [Ne.symm hk]),
          List.find?_cons_of_neg _ (by simp [hp, Ne.symm hk])]
        simp [hk]
    · rw [show assocSet (p :: rest) k0 v = p :: assocSet rest k0 v by simp [assocSet, hp]]
      by_cases hpk : p.1 = k
      · have hk : ¬ k = k0 := by rw [← hpk]; exact hp
        unfold lookupRef
        rw [List.find?_cons_of_pos _ (by simp [hpk]),
          List.find?_cons_of_pos _ (by simp [hpk])]
        simp [hk]
      · unfold lookupRef
        rw [List.find?_cons_of_neg _ (by simp [hpk]),
          List.find?_cons_of_neg _ (by simp [hpk])]
        simpa [lookupRef] using ih

theorem keys_assocSet (m : List (String × RawJob)) (k : String) (v : RawJob) :
    (assocSet m k v).map Prod.fst = m.map Prod.fst ∨
      ((assocSet m k v).map Prod.fst = m.map Prod.fst ++ [k] ∧ k ∉ m.map Prod.fst) := by
  induction m with
  | nil => right; simp [assocSet]
  | cons p rest ih =>
    by_cases hp : p.1 = k
    · left; simp [assocSet, hp]
    · rcases ih with h | ⟨h, hk⟩
      · left; simp [assocSet, hp, h]
      · right
        constructor
        · simp [assocSet, hp, h]
        · simp only [List.map_cons, List.mem_cons]
          rintro (hc | hc)
          · exact hp hc.symm
          · exact hk hc

theorem keys_nodup_assocSet {m : List (String × RawJob)} {k : String} {v : RawJob}
    (h : (m.map Prod.fst).Nodup) : ((assocSet m k v).map Prod.fst).Nodup := by
  rcases keys_assocSet m k v with heq | ⟨heq, hk⟩
  · rw [heq]; exact h
  · rw [heq]
    simpa using List.Nodup.append h (List.nodup_singleton k) (by simpa using hk)

theorem mem_assocSet {m : List (String × RawJob)} {k : String} {v : RawJob}
    {p : String × RawJob} (hp : p ∈ assocSet m k v) : p = (k, v) ∨ p ∈ m := by
  induction m with
  | nil => simpa [assocSet] using hp
  | cons q rest ih =>
    by_cases hq : q.1 = k
    · simp only [assocSet, beq_iff_eq, hq, if_true, List.mem_cons] at hp
      rcases hp with h | h
      · exact Or.inl h
      · exact Or.inr (List.mem_cons_of_mem q h)
    · simp only [assocSet, beq_iff_eq, hq, if_false, List.mem_cons] at hp
      rcases hp with h | h
      · exact Or.inr (h ▸ List.mem_cons_self q rest)
      · rcases ih h with h2 | h2
        · exact Or.inl h2
        · exact Or.inr (List.mem_cons_of_mem q h2)

theorem collectRefnrs_entries (s : List RawJob) (m : List (String × RawJob))
    (h : ∀ p ∈ m, p.2.refnr = some p.1 ∧ p.1 ≠ "") :
    ∀ p ∈ collectRefnrs m s, p.2.refnr = some p.1 ∧ p.1 ≠ "" := by
  induction s generalizing m with
  | nil => simpa [collectRefnrs] using h
  | cons raw rest ih =>
    match hr : raw.refnr with
    | none => simpa [collectRefnrs, hr] using ih m h
    | some r =>
      by_cases hre : r = ""
      · simpa [collectRefnrs, hr, hre] using ih m h
      · simp only [collectRefnrs, hr, hre, if_false]
        refine ih (assocSet m r raw) ?_
        intro p hp
        rcases mem_assocSet hp with hpe | hpm
        · subst hpe; exact ⟨hr, hre⟩
        · exact h p hpm

theorem collectRefnrs_keys_nodup (s : List RawJob) (m : List (String × RawJob))
    (h : (m.map Prod.fst).Nodup) : ((collectRefnrs m s).map Prod.fst).Nodup := by
  induction s generalizing m with
  | nil => simpa [collectRefnrs] using h
  | cons raw rest ih =>
    match hr : raw.refnr with
    | none => simpa [collectRefnrs, hr] using ih m h
    | some r =>
      by_cases hre : r = ""
      · simpa [collectRefnrs, hr, hre] using ih m h
      · simp only [collectRefnrs, hr, hre, if_false]
        exact ih (assocSet m r raw) (keys_nodup_assocSet h)

theorem lookupRef_collectRefnrs (s : List RawJob) (m : List (String × RawJob))
    (k : String) (hk : k ≠ "") :
    lookupRef (collectRefnrs m s) k =
      (s.reverse.find? fun x => x.refnr == some k).or (lookupRef m k) := by
  induction s generalizing m with
  | nil => simp [collectRefnrs]
  | cons raw rest ih =>
    rw [List.reverse_cons, List.find?_append, Option.or_assoc]
    match hr : raw.refnr with
    | none =>
      have hfr : List.find? (fun x => x.refnr == some k) [raw] = none := by
        rw [List.find?_cons_of_neg _ (by simp [hr])]
        rfl
      rw [show collectRefnrs m (raw :: rest) = collectRefnrs m rest by
        simp [collectRefnrs, hr]]
      rw [ih m, hfr, Option.none_or]
    | some r =>
      by_cases hre : r = ""
      · have hfr : List.find? (fun x => x.refnr == some k) [raw] = none := by
          rw [List.find?_cons_of_neg _ (by subst hre; simp [hr, Ne.symm hk])]
          rfl
        rw [show collectRefnrs m (raw :: rest) = collectRefnrs m rest by
          simp [collectRefnrs, hr, hre]]
        rw [ih m, hfr, Option.none_or]
      · rw [show collectRefnrs m (raw :: rest) = collectRefnrs (assocSet m r raw) rest by
          simp [collectRefnrs, hr, hre]]
        rw [ih (assocSet m r raw), lookupRef_assocSet]
        by_cases hkr : k = r
        · have hfr : List.find? (fun x => x.refnr == some k) [raw] = some raw := by
            rw [List.find?_cons_of_pos _ (by simp [hr, hkr])]
          rw [hfr, if_pos hkr, Option.or_some]
        · have hfr : List.find? (fun x => x.refnr == some k) [raw] = none := by
            rw [List.find?_cons_of_neg _ ?_]
            · rfl
            · simp only [hr, beq_iff_eq, Option.some.injEq]
              exact fun hc => hkr hc.symm
          rw [hfr, if_neg hkr, Option.none_or]

theorem lookupRef_of_mem_nodup {m : List (String × RawJob)}
    (h : (m.map Prod.fst).Nodup) {p : String × RawJob} (hp : p ∈ m) :
    lookupRef m p.1 = some p.2 := by
  induction m with
  | nil => cases hp
  | cons q rest ih =>
    rcases List.mem_cons.1 hp with hqe | hpm
    · subst hqe
      simp [lookupRef, List.find?_cons]
    · have hne : q.1 ≠ p.1 := by
        intro hc
        have := (List.nodup_cons.1 h).1
        exact this (hc ▸ List.mem_map_of_mem Prod.fst hpm)
      have := ih (List.nodup_cons.1 h).2 hpm
      simpa [lookupRef, List.find?_cons, hne] using this

/-- C10: the batch an Arbeitsagentur fetch hands to the pipeline has at most
one entry per refnr, every entry carries a non-empty refnr, and each entry
is the last occurrence of its refnr in the fetched stream (overlapping
queries and pages deduplicated, last fetched wins, entries without a refnr
dropped). -/
theorem fetch_job_list_dedup (queryPages : List (List (List RawJob))) (max_pages : Nat) :
    ((fetch_job_list queryPages max_pages).map fun j => j.refnr).Nodup ∧
    ∀ j ∈ fetch_job_list queryPages max_pages, ∃ r, j.refnr = some r ∧ r ≠ "" ∧
      (aaStream queryPages max_pages).reverse.find? (fun x => x.refnr == some r) =
        some j := by
  unfold fetch_job_list
  cases hq : queryPages.isEmpty with
  | true => simp [hq]
  | false =>
    simp only [hq, Bool.false_eq_true, if_false]
    have hent := collectRefnrs_entries (aaStream queryPages max_pages) [] (by simp)
    have hnodup := collectRefnrs_keys_nodup (aaStream queryPages max_pages) [] (by simp)
    constructor
    · rw [List.map_map]
      have hmaps :
          ((collectRefnrs [] (aaStream queryPages max_pages)).map
              ((fun j => j.refnr) ∘ fun p => p.2)) =
            ((collectRefnrs [] (aaStream queryPages max_pages)).map Prod.fst).map some := by
        rw [List.map_map]
        refine List.map_congr_left ?_
        intro p hp
        exact (hent p hp).1
      rw [hmaps]
      exact List.Nodup.map (Option.some_injective String) hnodup
    · intro j hj
      rcases List.mem_map.1 hj with ⟨p, hpmem, hpj⟩
      obtain ⟨href, hne⟩ := hent p hpmem
      refine ⟨p.1, hpj ▸ href, hne, ?_⟩
      have hlook := lookupRef_of_mem_nodup hnodup hpmem
      rw [lookupRef_collectRefnrs (aaStream queryPages max_pages) [] p.1 hne] at hlook
      rcases hfind : (aaStream queryPages max_pages).reverse.find?
          (fun x => x.refnr == some p.1) with _ | x
      · rw [hfind] at hlook
        simp [lookupRef] at hlook
      · rw [hfind, Option.or_some] at hlook
        rw [hfind, ← hpj]
        exact hlook

/-- C2: _process_batch invokes analyze with keyword arguments profile_text
and fit_score_context that analyze's signature does not accept, so every
enrichment invocation raises TypeError out of the batch instead of being
absorbed; the analyzer body itself would absorb failures (stub without a
credential, stub on a failing call) if it were reachable with those
arguments. -/
theorem analyze_call_type_error :
    (∀ body : AnalyzeResult,
      callWithKwargs analyzeParams analyzeCallKwargs body =
        Except.error "TypeError: analyze() got an unexpected keyword argument") ∧
    analyze "Stellentext" "" (fun _ => Except.error "no credential") = analyzeStub ∧
    analyze "Stellentext" "key" (fun _ => Except.error "malformed response") = analyzeStub :=
  ⟨fun _ => rfl, rfl, rfl⟩

theorem applyRemoteHint_refnr (hint : Bool) (j : Job) :
    (applyRemoteHint hint j).refnr = j.refnr := by
  unfold applyRemoteHint
  split <;> rfl

theorem build_job_refnr {raw : RawJob} {source : String} {hint : Bool}
    {fd : String → Option String} {j : Job} {r : String}
    (hr : raw.refnr = some r) (h : build_job raw source hint fd = some j) :
    j.refnr = r := by
  rw [build_job, hr] at h
  injection h with h2
  rw [← h2, applyRemoteHint_refnr]

theorem process_one_skip_unchanged {jobs : JobsTable} {sp : SearchProfile}
    {profile_key source : String} {enrich : String → Except String AnalyzeResult}
    {fetchDetail : String → Option String} {raw : RawJob} {r : String}
    (href : raw.refnr = some r) (hne : r ≠ "")
    (hex : job_exists jobs r = true)
    (heq : get_modifikations_timestamp jobs r = raw.modifikationsTimestamp) :
    process_one jobs sp profile_key source enrich fetchDetail raw =
      Except.ok (jobs, Outcome.skipped) := by
  rw [process_one, href]
  simp [hne, hex, heq]

theorem process_one_insert {jobs : JobsTable} {sp : SearchProfile}
    {profile_key source : String} {enrich : String → Except String AnalyzeResult}
    {fetchDetail : String → Option String} {raw : RawJob} {r : String}
    {job0 : Job} {result : AnalyzeResult}
    (href : raw.refnr = some r) (hne : r ≠ "")
    (hnex : job_exists jobs r = false)
    (hbuild : build_job raw source false fetchDetail = some job0)
    (htitle : sp.matches_title job0.titel = true)
    (hloc : sp.matches_location (some job0.ort) (job0.remote == some "remote") = true)
    (hen : enrich (job0.raw_text.getD "") = Except.ok result) :
    process_one jobs sp profile_key source enrich fetchDetail raw =
      Except.ok (jobs ++
        [insertedRow (applyAnalysis { job0 with search_profile := profile_key } result)],
        Outcome.new) := by
  have hjr := build_job_refnr href hbuild
  rw [process_one, href]
  simp only [hne, if_neg, hnex, Bool.false_and, Bool.false_eq_true, if_false, hbuild,
    htitle, hloc, Bool.not_true, Bool.or_self]
  have hraw : ({ job0 with search_profile := profile_key } : Job).raw_text = job0.raw_text := rfl
  rw [hraw, hen]
  simp only [if_neg, Bool.false_eq_true]
  rw [insert_job]
  have : (applyAnalysis { job0 with search_profile := profile_key } result).refnr = r := by
    rw [applyAnalysis]
    exact hjr
  rw [this, hnex]
  rfl

theorem process_one_update {jobs : JobsTable} {sp : SearchProfile}
    {profile_key source : String} {enrich : String → Except String AnalyzeResult}
    {fetchDetail : String → Option String} {raw : RawJob} {r : String}
    {job0 : Job} {result : AnalyzeResult}
    (href : raw.refnr = some r) (hne : r ≠ "")
    (hex : job_exists jobs r = true)
    (hneq : get_modifikations_timestamp jobs r ≠ raw.modifikationsTimestamp)
    (hbuild : build_job raw source false fetchDetail = some job0)
    (htitle : sp.matches_title job0.titel = true)
    (hloc : sp.matches_location (some job0.ort) (job0.remote == some "remote") = true)
    (hen : enrich (job0.raw_text.getD "") = Except.ok result) :
    process_one jobs sp profile_key source enrich fetchDetail raw =
      Except.ok (update_job jobs
        (applyAnalysis { job0 with search_profile := profile_key } result),
        Outcome.updated) := by
  have htok : (get_modifikations_timestamp jobs r == raw.modifikationsTimestamp) = false := by
    simpa using hneq
  rw [process_one, href]
  simp only [hne, if_neg, hex, Bool.true_and, htok, Bool.false_eq_true, if_false, hbuild,
    htitle, hloc, Bool.not_true, Bool.or_self]
  have hraw : ({ job0 with search_profile := profile_key } : Job).raw_text = job0.raw_text := rfl
  rw [hraw, hen]
  simp

theorem process_one_skip_filtered {jobs : JobsTable} {sp : SearchProfile}
    {profile_key source : String} {enrich : String → Except String AnalyzeResult}
    {fetchDetail : String → Option String} {raw : RawJob} {r : String} {job0 : Job}
    (href : raw.refnr = some r) (hne : r ≠ "")
    (hbuild : build_job raw source false fetchDetail = some job0)
    (hfail : sp.matches_title job0.titel = false ∨
      sp.matches_location (some job0.ort) (job0.remote == some "remote") = false) :
    process_one jobs sp profile_key source enrich fetchDetail raw =
      Except.ok (jobs, Outcome.skipped) := by
  rw [process_one, href]
  by_cases hskip :
      (job_exists jobs r && (get_modifikations_timestamp jobs r == raw.modifikationsTimestamp))
        = true
  · simp [hne, hskip]
  · simp only [hne, if_neg, Bool.not_eq_true] at hskip ⊢
    rw [hskip]
    simp only [Bool.false_eq_true, if_false, hbuild]
    rcases hfail with hf | hf <;> simp [hf]

/-- C3: per incoming listing with external id: an unchanged stored
change-token yields no store write, no enrichment call and a skipped count;
an unseen id passing both filters yields exactly one insert counted new; a
differing stored token passing both filters yields exactly one update
counted updated; a filter failure yields no store write and a skipped count
regardless of the change-token situation. -/
theorem reconciliation_transitions (jobs : JobsTable) (sp : SearchProfile)
    (profile_key source : String)
    (enrich enrich2 : String → Except String AnalyzeResult)
    (fetchDetail : String → Option String) (raw : RawJob) (r : String)
    (href : raw.refnr = some r) (hne : r ≠ "") :
    (job_exists jobs r = true →
      get_modifikations_timestamp jobs r = raw.modifikationsTimestamp →
      process_one jobs sp profile_key source enrich fetchDetail raw =
          Except.ok (jobs, Outcome.skipped) ∧
        process_one jobs sp profile_key source enrich fetchDetail raw =
          process_one jobs sp profile_key source enrich2 fetchDetail raw) ∧
    (∀ job0 result,
      build_job raw source false fetchDetail = some job0 →
      sp.matches_title job0.titel = true →
      sp.matches_location (some job0.ort) (job0.remote == some "remote") = true →
      enrich (job0.raw_text.getD "") = Except.ok result →
      (job_exists jobs r = false →
        process_one jobs sp profile_key source enrich fetchDetail raw =
          Except.ok (jobs ++
            [insertedRow (applyAnalysis { job0 with search_profile := profile_key } result)],
            Outcome.new)) ∧
      (job_exists jobs r = true →
        get_modifikations_timestamp jobs r ≠ raw.modifikationsTimestamp →
        process_one jobs sp profile_key source enrich fetchDetail raw =
          Except.ok (update_job jobs
            (applyAnalysis { job0 with search_profile := profile_key } result),
            Outcome.updated))) ∧
    (∀ job0,
      build_job raw source false fetchDetail = some job0 →
      (sp.matches_title job0.titel = false ∨
        sp.matches_location (some job0.ort) (job0.remote == some "remote") = false) →
      process_one jobs sp profile_key source enrich fetchDetail raw =
          Except.ok (jobs, Outcome.skipped) ∧
        process_one jobs sp profile_key source enrich fetchDetail raw =
          process_one jobs sp profile_key source enrich2 fetchDetail raw) := by
  refine ⟨fun hex heq => ?_, fun job0 result hbuild ht hl hen => ?_, fun job0 hbuild hfail => ?_⟩
  · exact ⟨process_one_skip_unchanged href hne hex heq,
      (process_one_skip_unchanged href hne hex heq).trans
        (process_one_skip_unchanged href hne hex heq).symm⟩
  · exact ⟨fun hnex => process_one_insert href hne hnex hbuild ht hl hen,
      fun hex hneq => process_one_update href hne hex hneq hbuild ht hl hen⟩
  · exact ⟨process_one_skip_filtered href hne hbuild hfail,
      (process_one_skip_filtered href hne hbuild hfail).trans
        (process_one_skip_filtered href hne hbuild hfail).symm⟩

/-- Witness for C3: an unseen matching listing against the empty store is
counted new. -/
theorem reconciliation_transitions_witness :
    (process_one [] referentProfile "c_koeln" "arbeitsagentur" enrichOk fetchNone rawA1).map
      (fun p => p.2) = Except.ok Outcome.new := by
  have h := reconciliation_transitions [] referentProfile "c_koeln" "arbeitsagentur"
    enrichOk enrichOk fetchNone rawA1 "A" rfl (by decide)
  have h2 := (h.2.1 _ analyzeStub rfl (by decide) (by decide) rfl).1 rfl
  rw [h2]
  rfl

/-- C1: the orchestrator never calls mark_jobs_presumably_filled (the
function has no caller in the repository), so after cycle 2 the unseen
listing B still has status active — although the cycle-2 run record does
show jobs_fetched = 1 — while the unused store helper, had it been called
with the cycle's seen set, would have transitioned exactly B. -/
theorem orchestrator_never_marks_filled :
    ((selectJob cycle2.1 "A").map fun j => j.job_status) = some "active" ∧
    ((selectJob cycle2.1 "B").map fun j => j.job_status) = some "active" ∧
    (cycle2.2.1.map fun rr => (rr.search_profile, rr.jobs_fetched, rr.status)) =
      [("c_koeln", 2, "success"), ("c_koeln", 1, "success")] ∧
    (mark_jobs_presumably_filled cycle2.1 "c_koeln" ["A"] "t-mark").2 = 1 ∧
    ((mark_jobs_presumably_filled cycle2.1 "c_koeln" ["A"] "t-mark").1.map
      fun j => (j.refnr, j.job_status)) = [("A", "active"), ("B", "presumably_filled")] :=
  ⟨rfl, rfl, rfl, rfl, rfl⟩

/-- Counterexample to C5 as stated: re-sighting the presumably_filled
listing with a differing token that passes the filters performs the update,
but the stored lifecycle status stays presumably_filled instead of
returning to active. -/
theorem resight_keeps_filled_counterexample :
    ((process_one [filledJob] referentProfile "c_koeln" "arbeitsagentur" enrichOk fetchNone
          resightRawB).toOption.bind fun p => selectJob p.1 "B").map
        (fun j => j.job_status) = some "presumably_filled" ∧
    ((process_one [filledJob] referentProfile "c_koeln" "arbeitsagentur" enrichOk fetchNone
        resightRawB).toOption.map fun p => p.2) = some Outcome.updated :=
  ⟨rfl, rfl⟩

theorem update_job_preserves_status (jobs : JobsTable) (job : Job) :
    ((update_job jobs job).map fun j => j.job_status) = (jobs.map fun j => j.job_status) ∧
    ((update_job jobs job).map fun j => j.status_updated_at) =
      (jobs.map fun j => j.status_updated_at) := by
  constructor <;>
  · unfold update_job
    rw [List.map_map]
    refine List.map_congr_left ?_
    intro row _
    simp only [Function.comp_apply]
    split <;> rfl

/-- C5 amended: a presumably_filled listing re-sighted with a differing
change-token that passes the filters undergoes exactly one update counted
updated, but update_job never touches the lifecycle status or its
timestamp, so the listing remains presumably_filled rather than returning
to active. -/
theorem resight_update_keeps_status {jobs : JobsTable} {sp : SearchProfile}
    {profile_key source : String} {enrich : String → Except String AnalyzeResult}
    {fetchDetail : String → Option String} {raw : RawJob} {r : String}
    {job0 : Job} {result : AnalyzeResult}
    (href : raw.refnr = some r) (hne : r ≠ "")
    (hex : job_exists jobs r = true)
    (hneq : get_modifikations_timestamp jobs r ≠ raw.modifikationsTimestamp)
    (hbuild : build_job raw source false fetchDetail = some job0)
    (htitle : sp.matches_title job0.titel = true)
    (hloc : sp.matches_location (some job0.ort) (job0.remote == some "remote") = true)
    (hen : enrich (job0.raw_text.getD "") = Except.ok result) :
    process_one jobs sp profile_key source enrich fetchDetail raw =
      Except.ok (update_job jobs
        (applyAnalysis { job0 with search_profile := profile_key } result),
        Outcome.updated) ∧
    ((update_job jobs
        (applyAnalysis { job0 with search_profile := profile_key } result)).map
      fun j => j.job_status) = (jobs.map fun j => j.job_status) :=
  ⟨process_one_update href hne hex hneq hbuild htitle hloc hen,
    (update_job_preserves_status jobs _).1⟩

/-- Witness for C5 amended at the concrete re-sighting fixture. -/
theorem resight_update_keeps_status_witness :
    (process_one [filledJob] referentProfile "c_koeln" "arbeitsagentur" enrichOk fetchNone
        resightRawB).map (fun p => p.1.map fun j => j.job_status) =
      Except.ok ["presumably_filled"] := by
  have h := @resight_update_keeps_status [filledJob] referentProfile "c_koeln"
    "arbeitsagentur" enrichOk fetchNone resightRawB "B" _ analyzeStub
    rfl (by decide) rfl (by decide) rfl (by decide) (by decide) rfl
  rw [h.1]
  rfl

/-- Counterexample to C7 as stated: the cycle exception is recorded on the
run record but then re-raised, so it propagates out of run() — the pending
cycle for c_bonn never starts and produces no run record at all. -/
theorem run_crash_counterexample :
    crashRun.2.2 = Except.error "boom" ∧
    crashRun.2.1.length = 1 ∧
    (crashRun.2.1.map fun rr => (rr.search_profile, rr.status, rr.error_msg, rr.finished_at)) =
      [("c_koeln", "error", some "boom", some "t0")] :=
  ⟨rfl, rfl, rfl⟩

theorem finish_run_append_fresh (runs : RunsTable) (r0 : PipelineRun) (id : Nat)
    (f n u sk fl : Nat) (st : String) (em : Option String) (now : String)
    (hid : r0.id = some id) (hfresh : ∀ rr ∈ runs, rr.id ≠ some id) :
    finish_run (runs ++ [r0]) id f n u sk fl st em now =
      runs ++ [{ r0 with
        finished_at := some now
        jobs_fetched := f
        jobs_new := n
        jobs_updated := u
        jobs_skipped := sk
        jobs_failed := fl
        status := st
        error_msg := em }] := by
  unfold finish_run
  rw [List.map_append]
  congr 1
  · have hstep : ∀ rr ∈ runs,
        (if rr.id == some id then
          { rr with
            finished_at := some now
            jobs_fetched := f
            jobs_new := n
            jobs_updated := u
            jobs_skipped := sk
            jobs_failed := fl
            status := st
            error_msg := em }
        else rr) = rr := by
      intro rr hrr
      rw [if_neg (by simpa using hfresh rr hrr)]
    rw [List.map_congr_left hstep]
    exact List.map_id runs
  · simp [hid]

theorem append_single_facts (runs : RunsTable) (x : PipelineRun) :
    (runs ++ [x]).length = runs.length + 1 ∧
    (∀ i : Nat, i < runs.length → (runs ++ [x])[i]? = runs[i]?) ∧
    (runs ++ [x]).getLast? = some x :=
  ⟨by simp, fun i hi => List.getElem?_append_left hi, List.getLast?_concat runs⟩

/-- C7 amended: every cycle that starts produces exactly one finished run
record, appended to the runs table with the earlier records untouched:
finished_at stamped, success with the fetched total on normal completion,
error with the exception message on a whole-cycle exception — but the
exception is then re-raised, so the remaining (candidate, profile) pairs of
the loop are never processed (already completed cycles keep their records).
-/
theorem run_record_per_cycle :
    (∀ (jobs : JobsTable) (runs : RunsTable) (candidate_name : String) (sp : SearchProfile)
      (aa an : List RawJob) (enrich : String → Except String AnalyzeResult)
      (fetchDetail : String → Option String) (now : String),
      (∀ rr ∈ runs, rr.id ≠ some (runs.length + 1)) →
      (run_profile jobs runs candidate_name sp aa an enrich fetchDetail now).2.1.length =
          runs.length + 1 ∧
      (∀ i : Nat, i < runs.length →
        (run_profile jobs runs candidate_name sp aa an enrich fetchDetail now).2.1[i]? =
          runs[i]?) ∧
      (∃ rr,
        (run_profile jobs runs candidate_name sp aa an enrich fetchDetail now).2.1.getLast? =
            some rr ∧
        rr.search_profile = candidate_name ++ "_" ++ sp.name ∧
        rr.finished_at = some now ∧
        (((run_profile jobs runs candidate_name sp aa an enrich fetchDetail now).2.2 =
              Except.ok () ∧
            rr.status = "success" ∧ rr.error_msg = none ∧
            rr.jobs_fetched = aa.length + an.length) ∨
          (∃ e,
            (run_profile jobs runs candidate_name sp aa an enrich fetchDetail now).2.2 =
                Except.error e ∧
            rr.status = "error" ∧ rr.error_msg = some e)))) ∧
    (∀ (jobs : JobsTable) (runs : RunsTable)
      (fetchAA fetchAN : CandidateProfile → SearchProfile → List RawJob)
      (enrich : String → Except String AnalyzeResult) (fetchDetail : String → Option String)
      (now : String) (c : CandidateProfile) (sp : SearchProfile)
      (rest : List (CandidateProfile × SearchProfile)) (e : String),
      (run_profile jobs runs c.name sp (fetchAA c sp) (fetchAN c sp) enrich fetchDetail
          now).2.2 = Except.error e →
      runPairs jobs runs fetchAA fetchAN enrich fetchDetail now ((c, sp) :: rest) =
        run_profile jobs runs c.name sp (fetchAA c sp) (fetchAN c sp) enrich fetchDetail
          now) := by
  constructor
  · intro jobs runs cname sp aa an enrich fd now hfresh
    simp only [run_profile, insert_run]
    rcases hpb1 : process_batch jobs {} sp (cname ++ "_" ++ sp.name) "arbeitsagentur" enrich
        fd aa with ⟨jobs1, caa⟩
    cases caa with
    | error e =>
      dsimp only
      rw [finish_run_append_fresh runs _ (runs.length + 1) 0 0 0 0 0 "error" (some e) now rfl
        hfresh]
      refine ⟨(append_single_facts runs _).1, (append_single_facts runs _).2.1,
        ⟨_, (append_single_facts runs _).2.2, rfl, rfl, Or.inr ⟨e, rfl, rfl, rfl⟩⟩⟩
    | ok aa_counts =>
      dsimp only
      rcases hpb2 : process_batch jobs1 {} sp (cname ++ "_" ++ sp.name) "arbeitnow" enrich
          fd an with ⟨jobs2, can⟩
      cases can with
      | error e =>
        dsimp only
        rw [finish_run_append_fresh runs _ (runs.length + 1) 0 0 0 0 0 "error" (some e) now
          rfl hfresh]
        refine ⟨(append_single_facts runs _).1, (append_single_facts runs _).2.1,
          ⟨_, (append_single_facts runs _).2.2, rfl, rfl, Or.inr ⟨e, rfl, rfl, rfl⟩⟩⟩
      | ok an_counts =>
        dsimp only
        rw [finish_run_append_fresh runs _ (runs.length + 1) (aa.length + an.length)
          (aa_counts.new + an_counts.new) (aa_counts.reanalyzed + an_counts.reanalyzed)
          (aa_counts.skipped + an_counts.skipped) (aa_counts.failed + an_counts.failed)
          "success" none now rfl hfresh]
        refine ⟨(append_single_facts runs _).1, (append_single_facts runs _).2.1,
          ⟨_, (append_single_facts runs _).2.2, rfl, rfl, Or.inl ⟨rfl, rfl, rfl, rfl⟩⟩⟩
  · intro jobs runs fetchAA fetchAN enrich fd now c sp rest e herr
    rw [runPairs]
    rcases hrp : run_profile jobs runs c.name sp (fetchAA c sp) (fetchAN c sp) enrich fd
        now with ⟨j2, r2, st⟩
    rw [hrp] at herr
    cases st with
    | error e2 =>
      simp only at herr
      rw [herr]
    | ok u => cases herr

/-- Witness for C7 amended: a cycle over empty batches against the empty
store produces exactly one run record. -/
theorem run_record_per_cycle_witness :
    (run_profile [] [] "c" referentProfile [] [] enrichOk fetchNone "t0").2.1.length = 1 :=
  (run_record_per_cycle.1 [] [] "c" referentProfile [] [] enrichOk fetchNone "t0"
    (by simp)).1

/-- C9 (code-bug evidence): run() iterates every search profile of every
candidate without consulting the enabled flag, so a cycle is executed and a
run record created even for a profile whose enabled flag is false. -/
theorem run_ignores_enabled_flag :
    disabledProfile.enabled = false ∧
    disabledRun.2.1.length = 1 ∧
    (disabledRun.2.1.map fun rr => (rr.search_profile, rr.status)) = [("c_koeln", "success")] ∧
    disabledRun.2.2 = Except.ok () :=
  ⟨rfl, rfl, rfl, rfl⟩

/-- Witness for C6: the referent profile's iff instantiated at a concrete
title. -/
theorem matches_title_characterisation_witness :
    (∃ kw ∈ referentProfile.title_keywords, KeywordPrefixHit kw "Referent Bildung") ∧
      ¬ ∃ ex ∈ referentProfile.title_exclude, ExcludeFullWordHit ex "Referent Bildung" :=
  (matches_title_characterisation.1 referentProfile "Referent Bildung").1 (by decide)

/-- Witness for C10 at a concrete overlapping two-page fetch. -/
theorem fetch_job_list_dedup_witness :
    ((fetch_job_list [[[rawA1, rawB1], [rawA1]]] 10).map fun j => j.refnr).Nodup :=
  (fetch_job_list_dedup [[[rawA1, rawB1], [rawA1]]] 10).1

end JobRadar
